import Mathlib

/-!
Verification of the Bumblebee daemon lifecycle (src/bumblebeed.c).

The C source is shallowly embedded.  External collaborators (the PCI bus
scanner, libbsd pidfile primitives, libc fork/setsid/chdir/open, the
secondary power controller, the dbus service, the logger) are modelled by
an environment record `Env` that fixes the outcome of each external call,
and every run of the daemon produces an explicit trace (`List Ev`) of the
effect calls it makes, in order.  The control flow of `main`, `bb_chgid`,
`daemonize` and `handle_signal` is translated branch by branch from the
source.  The build is the `WITH_PIDFILE` build (the pidfile code of
bumblebeed.c is included in the embedding).
-/

namespace Bumblebeed

/-- Run modes of the daemon (`bb_status.runmode`): `BB_RUN_SERVER`,
`BB_RUN_DAEMON`, `BB_RUN_EXIT`. -/
inductive RunMode
  | server
  | daemon
  | exit
deriving DecidableEq

/-- Signals handled by `handle_signal` (plus a stand-in for any other). -/
inductive Sig
  | hup
  | pipe
  | int
  | quit
  | term
  | other
deriving DecidableEq

/-- Outcome of `pidfile_open`: success, failure with `errno == EEXIST`
(another live instance holds the lock), or any other failure. -/
inductive PidOpen
  | ok
  | eexist
  | otherErr
deriving DecidableEq

/-- Outcome of `fork()`: negative return (failure), positive return (we are
the parent), or zero (we are the child). -/
inductive ForkRes
  | failed
  | parent
  | child
deriving DecidableEq

/-- The distinguishable log lines emitted by bumblebeed.c. -/
inductive LogMsg
  | noNvidia
  | noOptimus
  | alreadyRunning (pid : Nat)
  | cannotOpenPidfile
  | strerrorMsg
  | noGroup (name : String)
  | couldNotSetGid
  | couldNotFork
  | couldNotSetSid
  | couldNotChdir
  | couldNotOpenDevNull
  | startedBanner
  | initCompleted
  | receivedSignal
  | receivedIgnoring
  | receivedPipe (n : Nat)
  | unhandledSignal
deriving DecidableEq

/-- Effect events: every external call made by the embedded code, in program
order.  Payloads record the arguments and (for calls whose result the C code
receives) the outcome supplied by the environment. -/
inductive Ev
  | initLog
  | installHandlers
  | pciScanNvidia (found : Bool)
  | pciScanIntel (found : Bool)
  | freeIgd
  | driverDetect
  | checkPmMethod
  | configDump
  | configValidate (ok : Bool)
  | log (m : LogMsg)
  | pidfileOpenCall (path : String) (res : PidOpen)
  | closeLog
  | getgrnamCall (name : String) (res : Option Nat)
  | setgidCall (gid : Nat) (ok : Bool)
  | umaskCall (mask : Nat)
  | pidfileRemoveCall (held : Bool)
  | forkCall (res : ForkRes)
  | parentExit
  | setsidCall (ok : Bool)
  | chdirRoot (ok : Bool)
  | openDevNull (res : Option Nat)
  | dup2Call (fd : Nat) (target : Nat)
  | pidfileWriteCall (held : Bool)
  | dbusInit
  | socketServerOpen (path : String)
  | startSecondaryCall
  | stopSecondaryCall
  | runMainLoop
  | connectionsFiniCall
  | unlinkCall (path : String) (ok : Bool)
  | setRunMode (m : RunMode)
  | dbusFini
  | stopAllCall
  | closeFdCall (fd : Int)
  | socketCloseCall
  | stopWaitingCall
deriving DecidableEq

/-- The parts of process state touched from the signal-handler context:
the static `sigpipes` counter of `handle_signal`, the control socket handle
(`bb_status.bb_socket`, abstracted to open/closed) and the process runner's
stop-waiting flag. -/
structure SigState where
  sigpipes : Nat
  socketOpen : Bool
  stopWaiting : Bool
deriving DecidableEq

/-- Signal-handler state while the daemon is serving: counter at zero,
socket open, not stop-waiting. -/
def initSigState : SigState := ⟨0, true, false⟩

/-- Modelled from the spec: `socketClose` (bbsocket, not under src/) closes
the control socket handle; the call is also recorded as an effect. -/
def socketClose (st : SigState) : SigState × List Ev :=
  ({ st with socketOpen := false }, [Ev.socketCloseCall])

/-- Modelled from the spec: `bb_run_stopwaiting` (bbrun, not under src/)
signals the process runner to stop waiting on outstanding children. -/
def bb_run_stopwaiting (st : SigState) : SigState × List Ev :=
  ({ st with stopWaiting := true }, [Ev.stopWaitingCall])

/-- `handle_signal` from bumblebeed.c, lines 124-153.  The `static int
sigpipes` counter is the `sigpipes` field of the state. -/
def handle_signal (sig : Sig) (st : SigState) : SigState × List Ev :=
  match sig with
  | Sig.hup => (st, [Ev.log LogMsg.receivedIgnoring])
  | Sig.pipe =>
      if st.sigpipes ≤ 10 then
        ({ st with sigpipes := st.sigpipes + 1 },
         [Ev.log (LogMsg.receivedPipe (st.sigpipes + 1))])
      else (st, [])
  | Sig.int =>
      ((socketClose st).1, Ev.log LogMsg.receivedSignal :: (socketClose st).2)
  | Sig.quit =>
      ((socketClose st).1, Ev.log LogMsg.receivedSignal :: (socketClose st).2)
  | Sig.term =>
      ((bb_run_stopwaiting (socketClose st).1).1,
       Ev.log LogMsg.receivedSignal ::
         ((socketClose st).2 ++ (bb_run_stopwaiting (socketClose st).1).2))
  | Sig.other => (st, [Ev.log LogMsg.unhandledSignal])

/-- Deliver a list of signals one after the other, concatenating effects. -/
def runSignals : List Sig → SigState → SigState × List Ev
  | [], st => (st, [])
  | s :: rest, st =>
      let r1 := handle_signal s st
      let r2 := runSignals rest r1.1
      (r2.1, r1.2 ++ r2.2)

/-- Is this signal SIGPIPE. -/
def isPipeSig : Sig → Bool
  | Sig.pipe => true
  | _ => false

/-- Is this event a log line about a received SIGPIPE. -/
def isPipeLog : Ev → Bool
  | Ev.log (LogMsg.receivedPipe _) => true
  | _ => false

/-- Number of SIGPIPE log lines in a trace. -/
def countPipeLogs (t : List Ev) : Nat := t.countP isPipeLog

/-- The configuration fields of `bb_config` that bumblebeed.c's lifecycle
code reads.  `gid_name` is a possibly-NULL C string, `pid_file` and
`socket_path` are plain strings ("" = unset pidfile path),
`card_shutdown_state` is the 0/1 policy for the final power call. -/
structure BBConfig where
  gid_name : Option String
  pid_file : String
  socket_path : String
  card_shutdown_state : Bool
deriving DecidableEq

/-- Outcomes of every external call `main` can make, fixed up front by the
environment, together with run-mode selection (`-D`) and the value
`bb_status.x_err_fd` holds when the event loop returns. -/
structure Env where
  discrete_found : Bool
  igd_found : Bool
  config_valid : Bool
  pidfile_open : PidOpen
  otherpid : Nat
  group_gid : Option Nat
  setgid_ok : Bool
  daemon_mode : Bool
  fork_res : ForkRes
  setsid_ok : Bool
  chdir_ok : Bool
  devnull : Option Nat
  initial_umask : Nat
  unlink_ok : Bool
  x_err_fd : Int
deriving DecidableEq

/-- Process state relevant to `bb_chgid`: current gid and file-creation
mask, plus the run mode and the diagnostic descriptor of `bb_status`. -/
structure PState where
  runmode : RunMode
  umaskVal : Nat
  gid : Option Nat
  x_err_fd : Int
deriving DecidableEq

/-- Process state at the point `main` reaches the gid/umask change. -/
def initPState (env : Env) : PState :=
  { runmode := if env.daemon_mode then RunMode.daemon else RunMode.server,
    umaskVal := env.initial_umask, gid := none, x_err_fd := -1 }

/-- Result of a run of `main`: the process exit code and the effect trace. -/
structure MainRes where
  exitCode : Nat
  trace : List Ev
deriving DecidableEq

/-- The name `bb_chgid` passes to `getgrnam` (`bb_config.gid_name`). -/
def gidName (cfg : BBConfig) : String := cfg.gid_name.getD ""

/-- The guard of the gid block in `main`, line 298:
`(bb_config.gid_name != 0) && (bb_config.gid_name[0] != 0)`. -/
def gidConfigured (cfg : BBConfig) : Bool :=
  match cfg.gid_name with
  | none => false
  | some s => decide (s ≠ "")

/-- Whether the `pfh` pidfile handle is non-NULL on paths past the pidfile
block of `main`: exactly when a pidfile path was configured (line 283,
`bb_config.pid_file[0]`), since an open failure exits inside the block. -/
def pidHeld (cfg : BBConfig) : Bool := decide (cfg.pid_file ≠ "")

/-- `bb_chgid` from bumblebeed.c, lines 58-76: resolve the configured group
name, set the gid, then set the file mode mask to 027 (= 23).  Returns
`EXIT_SUCCESS` (0) or `EXIT_FAILURE` (1), the updated process state and the
trace of effects. -/
def bb_chgid (cfg : BBConfig) (env : Env) (st : PState) :
    Nat × PState × List Ev :=
  match env.group_gid with
  | none =>
      (1, st,
       [Ev.getgrnamCall (gidName cfg) none, Ev.log LogMsg.strerrorMsg,
        Ev.log (LogMsg.noGroup (gidName cfg))])
  | some g =>
      if env.setgid_ok then
        (0, { st with gid := some g, umaskVal := 23 },
         [Ev.getgrnamCall (gidName cfg) (some g), Ev.setgidCall g true,
          Ev.umaskCall 23])
      else
        (1, st,
         [Ev.getgrnamCall (gidName cfg) (some g), Ev.setgidCall g false,
          Ev.log LogMsg.couldNotSetGid])

/-- Result of `daemonize`: either the parent process exited with
`EXIT_SUCCESS` right after the fork, or the (child or unforked) process got
a return value back. -/
inductive DaemonizeRes
  | parentExited
  | ret (code : Nat)
deriving DecidableEq

/-- `daemonize` from bumblebeed.c, lines 83-119: fork (parent exits with
success), new session, chdir to `/`, redirect stdio to /dev/null. -/
def daemonize (env : Env) : DaemonizeRes × List Ev :=
  match env.fork_res with
  | ForkRes.failed =>
      (DaemonizeRes.ret 1,
       [Ev.forkCall ForkRes.failed, Ev.log LogMsg.couldNotFork])
  | ForkRes.parent =>
      (DaemonizeRes.parentExited, [Ev.forkCall ForkRes.parent, Ev.parentExit])
  | ForkRes.child =>
      if env.setsid_ok then
        if env.chdir_ok then
          match env.devnull with
          | some fd =>
              (DaemonizeRes.ret 0,
               [Ev.forkCall ForkRes.child, Ev.setsidCall true,
                Ev.chdirRoot true, Ev.openDevNull (some fd),
                Ev.dup2Call fd 0, Ev.dup2Call fd 1, Ev.dup2Call fd 2])
          | none =>
              (DaemonizeRes.ret 1,
               [Ev.forkCall ForkRes.child, Ev.setsidCall true,
                Ev.chdirRoot true, Ev.openDevNull none,
                Ev.log LogMsg.couldNotOpenDevNull])
        else
          (DaemonizeRes.ret 1,
           [Ev.forkCall ForkRes.child, Ev.setsidCall true,
            Ev.chdirRoot false, Ev.log LogMsg.couldNotChdir])
      else
        (DaemonizeRes.ret 1,
         [Ev.forkCall ForkRes.child, Ev.setsidCall false,
          Ev.log LogMsg.couldNotSetSid])

/-- The shutdown coordinator: the straight-line code of `main` after
`g_main_loop_run` returns, bumblebeed.c lines 340-360: `connections_fini`,
`unlink(socket_path)`, `runmode = BB_RUN_EXIT`, the final power call chosen
by `card_shutdown_state`, `bb_dbus_fini`, `bb_closelog`, `pidfile_remove`,
`bb_stop_all`, and closing `x_err_fd` when one is open. -/
def shutdownSeq (cfg : BBConfig) (env : Env) : List Ev :=
  [Ev.connectionsFiniCall,
   Ev.unlinkCall cfg.socket_path env.unlink_ok,
   Ev.setRunMode RunMode.exit]
  ++ (if cfg.card_shutdown_state then [Ev.startSecondaryCall]
      else [Ev.stopSecondaryCall])
  ++ [Ev.dbusFini, Ev.closeLog, Ev.pidfileRemoveCall (pidHeld cfg),
      Ev.stopAllCall]
  ++ (if env.x_err_fd ≠ -1 then [Ev.closeFdCall env.x_err_fd] else [])

/-- Effects of `main` from startup through `config_validate`, lines
236-277 (logging/handler setup, the two PCI scans, driver and
power-method resolution, configuration dump and validation). -/
def startupPrefix (env : Env) : List Ev :=
  [Ev.initLog, Ev.installHandlers, Ev.pciScanNvidia env.discrete_found,
   Ev.pciScanIntel env.igd_found, Ev.freeIgd, Ev.driverDetect,
   Ev.checkPmMethod, Ev.configDump, Ev.configValidate env.config_valid]

/-- `main` from `pidfile_write` (line 325) onward: write the pid, dbus
init, open the control socket, power the card down, run the event loop,
then the shutdown coordinator.  Clean runs exit with 0. -/
def mainLoopStage (cfg : BBConfig) (env : Env) (t : List Ev) : MainRes :=
  ⟨0, t ++ [Ev.pidfileWriteCall (pidHeld cfg), Ev.dbusInit,
            Ev.socketServerOpen cfg.socket_path, Ev.stopSecondaryCall,
            Ev.log LogMsg.initCompleted, Ev.runMainLoop]
       ++ shutdownSeq cfg env⟩

/-- `main` lines 312-321: daemonize when `-D` was given; on failure close
the log, remove the pidfile and exit with `daemonize`'s return value. -/
def mainDaemonStage (cfg : BBConfig) (env : Env) (t : List Ev) : MainRes :=
  if env.daemon_mode then
    match daemonize env with
    | (DaemonizeRes.parentExited, td) => ⟨0, t ++ td⟩
    | (DaemonizeRes.ret c, td) =>
        if c ≠ 0 then
          ⟨c, t ++ td ++ [Ev.closeLog, Ev.pidfileRemoveCall (pidHeld cfg)]⟩
        else mainLoopStage cfg env (t ++ td)
  else mainLoopStage cfg env t

/-- `main` lines 297-309: gid/umask change when a group is configured; on
failure close the log, remove the pidfile and exit with `bb_chgid`'s return
value; then log the startup banner. -/
def mainChgidStage (cfg : BBConfig) (env : Env) (t : List Ev) : MainRes :=
  if gidConfigured cfg then
    if (bb_chgid cfg env (initPState env)).1 ≠ 0 then
      ⟨(bb_chgid cfg env (initPState env)).1,
       t ++ (bb_chgid cfg env (initPState env)).2.2
         ++ [Ev.closeLog, Ev.pidfileRemoveCall (pidHeld cfg)]⟩
    else
      mainDaemonStage cfg env
        (t ++ (bb_chgid cfg env (initPState env)).2.2
           ++ [Ev.log LogMsg.startedBanner])
  else mainDaemonStage cfg env (t ++ [Ev.log LogMsg.startedBanner])

/-- `main` lines 281-295: when a pidfile path is configured, acquire the
exclusive pidfile lock; on `EEXIST` log the distinguished "already
running" message, else the generic open failure; both close the log and
exit with `EXIT_FAILURE`. -/
def mainPidfileStage (cfg : BBConfig) (env : Env) (t : List Ev) : MainRes :=
  if cfg.pid_file ≠ "" then
    match env.pidfile_open with
    | PidOpen.ok =>
        mainChgidStage cfg env
          (t ++ [Ev.pidfileOpenCall cfg.pid_file PidOpen.ok])
    | PidOpen.eexist =>
        ⟨1, t ++ [Ev.pidfileOpenCall cfg.pid_file PidOpen.eexist,
                  Ev.log (LogMsg.alreadyRunning env.otherpid), Ev.closeLog]⟩
    | PidOpen.otherErr =>
        ⟨1, t ++ [Ev.pidfileOpenCall cfg.pid_file PidOpen.otherErr,
                  Ev.log LogMsg.cannotOpenPidfile, Ev.closeLog]⟩
  else mainChgidStage cfg env t

/-- `main` from bumblebeed.c, lines 229-361.  The two PCI presence checks
abort with `EXIT_FAILURE` before anything else happens; then the pidfile,
gid, daemonize and service/loop stages run in order. -/
def main (cfg : BBConfig) (env : Env) : MainRes :=
  if env.discrete_found then
    if env.igd_found then
      if env.config_valid then mainPidfileStage cfg env (startupPrefix env)
      else ⟨1, startupPrefix env⟩
    else
      ⟨1, [Ev.initLog, Ev.installHandlers,
           Ev.pciScanNvidia env.discrete_found,
           Ev.pciScanIntel env.igd_found, Ev.log LogMsg.noOptimus]⟩
  else
    ⟨1, [Ev.initLog, Ev.installHandlers,
         Ev.pciScanNvidia env.discrete_found, Ev.log LogMsg.noNvidia]⟩

/-- The trace accumulated when `main` reaches the gid/umask stage of a
startup in which everything so far succeeded. -/
def preChgidTrace (cfg : BBConfig) (env : Env) : List Ev :=
  startupPrefix env
  ++ (if cfg.pid_file ≠ "" then [Ev.pidfileOpenCall cfg.pid_file PidOpen.ok]
      else [])

/-- The trace accumulated when `main` reaches the daemonize stage of a
startup in which everything so far succeeded. -/
def preDaemonTrace (cfg : BBConfig) (env : Env) : List Ev :=
  preChgidTrace cfg env
  ++ (if gidConfigured cfg then
        (bb_chgid cfg env (initPState env)).2.2 ++ [Ev.log LogMsg.startedBanner]
      else [Ev.log LogMsg.startedBanner])

/-- The whole trace of a fault-free run of `main` up to and including
entering the event loop. -/
def preShutdownTrace (cfg : BBConfig) (env : Env) : List Ev :=
  preDaemonTrace cfg env
  ++ (if env.daemon_mode then (daemonize env).2 else [])
  ++ [Ev.pidfileWriteCall (pidHeld cfg), Ev.dbusInit,
      Ev.socketServerOpen cfg.socket_path, Ev.stopSecondaryCall,
      Ev.log LogMsg.initCompleted, Ev.runMainLoop]

/-- The startup reaches (past) the pidfile block: both GPUs present, the
configuration valid, and the pidfile lock (when configured) acquired. -/
def reachesPastPidfile (cfg : BBConfig) (env : Env) : Bool :=
  env.discrete_found && env.igd_found && env.config_valid
    && (decide (cfg.pid_file = "") || decide (env.pidfile_open = PidOpen.ok))

/-- The gid/umask change succeeds. -/
def gidOk (env : Env) : Bool := env.group_gid.isSome && env.setgid_ok

/-- The startup reaches the daemonize stage. -/
def reachesDaemonize (cfg : BBConfig) (env : Env) : Bool :=
  reachesPastPidfile cfg env && (!(gidConfigured cfg) || gidOk env)

/-- All four steps of `daemonize` succeed in the child. -/
def daemonizeOkEnv (env : Env) : Bool :=
  decide (env.fork_res = ForkRes.child) && env.setsid_ok && env.chdir_ok
    && env.devnull.isSome

/-- The startup reaches the event loop (and hence the shutdown
coordinator): every fallible stage before the loop succeeds. -/
def reachesLoop (cfg : BBConfig) (env : Env) : Bool :=
  reachesDaemonize cfg env && (!env.daemon_mode || daemonizeOkEnv env)

/-- Event classifiers used to count occurrences in traces. -/
def isConnFini : Ev → Bool
  | Ev.connectionsFiniCall => true
  | _ => false

def isUnlink : Ev → Bool
  | Ev.unlinkCall _ _ => true
  | _ => false

def isSetExit : Ev → Bool
  | Ev.setRunMode RunMode.exit => true
  | _ => false

def isDbusFini : Ev → Bool
  | Ev.dbusFini => true
  | _ => false

def isCloseLogEv : Ev → Bool
  | Ev.closeLog => true
  | _ => false

def isPidRemove : Ev → Bool
  | Ev.pidfileRemoveCall _ => true
  | _ => false

def isStopAll : Ev → Bool
  | Ev.stopAllCall => true
  | _ => false

def isCloseFd : Ev → Bool
  | Ev.closeFdCall _ => true
  | _ => false

def isStartSec : Ev → Bool
  | Ev.startSecondaryCall => true
  | _ => false

def isStopSec : Ev → Bool
  | Ev.stopSecondaryCall => true
  | _ => false

/-- Any call into the secondary power controller. -/
def isPowerCall (e : Ev) : Bool := isStartSec e || isStopSec e

def isSocketOpen : Ev → Bool
  | Ev.socketServerOpen _ => true
  | _ => false

def isRunLoop : Ev → Bool
  | Ev.runMainLoop => true
  | _ => false

def isPidWrite : Ev → Bool
  | Ev.pidfileWriteCall _ => true
  | _ => false

/-- An event of one of the (unambiguous) shutdown-coordinator steps. -/
def isShutStep (e : Ev) : Bool :=
  isConnFini e || isUnlink e || isSetExit e || isDbusFini e
    || isCloseLogEv e || isPidRemove e || isStopAll e || isCloseFd e

/-- A configuration with every optional feature on: group, pidfile,
power-off-at-exit policy. -/
def cfgW : BBConfig :=
  { gid_name := some "bumblebee",
    pid_file := "/var/run/bumblebeed.pid",
    socket_path := "/var/run/bumblebee.socket",
    card_shutdown_state := false }

/-- A configuration with no group, no pidfile and the power-on-at-exit
policy. -/
def cfgNoPid : BBConfig :=
  { gid_name := none, pid_file := "", socket_path := "/tmp/bb.socket",
    card_shutdown_state := true }

/-- An environment in which every external call succeeds and `-D` (daemon
mode) was given; the run continues in the forked child. -/
def envW : Env :=
  { discrete_found := true, igd_found := true, config_valid := true,
    pidfile_open := PidOpen.ok, otherpid := 0, group_gid := some 104,
    setgid_ok := true, daemon_mode := true, fork_res := ForkRes.child,
    setsid_ok := true, chdir_ok := true, devnull := some 3,
    initial_umask := 18, unlink_ok := true, x_err_fd := -1 }

/-- Like `envW` but without daemon mode and with a diagnostic descriptor
left open by a spawned X session. -/
def envNoDaemon : Env := { envW with daemon_mode := false, x_err_fd := 7 }

/-- Like `envW` but the nVidia PCI scan finds nothing. -/
def envNoGpu : Env := { envW with discrete_found := false }

/-- Like `envW` but another instance holds the pidfile lock. -/
def envPidBusy : Env := { envW with pidfile_open := PidOpen.eexist, otherpid := 4242 }

/-- Like `envW` but `fork` returns in the parent. -/
def envParent : Env := { envW with fork_res := ForkRes.parent }

/-- Like `envW` but the configured group name does not resolve. -/
def envNoGroup : Env := { envW with group_gid := none }

/-- Like `envW` but `fork` fails. -/
def envForkFail : Env := { envW with fork_res := ForkRes.failed }

/- ------------------------------------------------------------------ -/
/- Helper lemmas.                                                      -/
/- ------------------------------------------------------------------ -/

theorem reachPid_parts (cfg : BBConfig) (env : Env)
    (h : reachesPastPidfile cfg env = true) :
    env.discrete_found = true ∧ env.igd_found = true ∧ env.config_valid = true
    ∧ (cfg.pid_file ≠ "" → env.pidfile_open = PidOpen.ok) := by
  unfold reachesPastPidfile at h
  simp only [Bool.and_eq_true, Bool.or_eq_true, decide_eq_true_eq] at h
  obtain ⟨⟨⟨hd, hi⟩, hv⟩, hpid⟩ := h
  exact ⟨hd, hi, hv, fun hne => hpid.resolve_left hne⟩

theorem reachD_parts (cfg : BBConfig) (env : Env)
    (h : reachesDaemonize cfg env = true) :
    reachesPastPidfile cfg env = true
    ∧ (gidConfigured cfg = true →
        ∃ g, env.group_gid = some g ∧ env.setgid_ok = true) := by
  unfold reachesDaemonize gidOk at h
  simp only [Bool.and_eq_true, Bool.or_eq_true, Bool.not_eq_true',
    Option.isSome_iff_exists] at h
  obtain ⟨h1, hgid⟩ := h
  refine ⟨h1, ?_⟩
  intro hg
  rcases hgid with h2 | h2
  · rw [hg] at h2; exact absurd h2 (by simp)
  · obtain ⟨⟨g, hgg⟩, hs⟩ := h2
    exact ⟨g, hgg, hs⟩

theorem reachL_parts (cfg : BBConfig) (env : Env)
    (h : reachesLoop cfg env = true) :
    reachesDaemonize cfg env = true
    ∧ (env.daemon_mode = true →
        env.fork_res = ForkRes.child ∧ env.setsid_ok = true
        ∧ env.chdir_ok = true ∧ ∃ fd, env.devnull = some fd) := by
  unfold reachesLoop daemonizeOkEnv at h
  simp only [Bool.and_eq_true, Bool.or_eq_true, decide_eq_true_eq,
    Bool.not_eq_true', Option.isSome_iff_exists] at h
  obtain ⟨h1, hdm⟩ := h
  refine ⟨h1, ?_⟩
  intro hm
  rcases hdm with h2 | h2
  · rw [hm] at h2; exact absurd h2 (by simp)
  · obtain ⟨⟨⟨hf, hs⟩, hc⟩, fd, hfd⟩ := h2
    exact ⟨hf, hs, hc, fd, hfd⟩

theorem main_reachPid (cfg : BBConfig) (env : Env)
    (h : reachesPastPidfile cfg env = true) :
    main cfg env = mainChgidStage cfg env (preChgidTrace cfg env) := by
  obtain ⟨hd, hi, hv, hpid⟩ := reachPid_parts cfg env h
  by_cases hp : cfg.pid_file = ""
  · simp [main, mainPidfileStage, preChgidTrace, hd, hi, hv, hp]
  · have hok := hpid hp
    simp [main, mainPidfileStage, preChgidTrace, hd, hi, hv, hp, hok]

theorem main_reachD (cfg : BBConfig) (env : Env)
    (h : reachesDaemonize cfg env = true) :
    main cfg env = mainDaemonStage cfg env (preDaemonTrace cfg env) := by
  obtain ⟨h1, hgid⟩ := reachD_parts cfg env h
  rw [main_reachPid cfg env h1]
  by_cases hg : gidConfigured cfg
  · obtain ⟨g, hgg, hs⟩ := hgid hg
    simp [mainChgidStage, preDaemonTrace, hg, bb_chgid, hgg, hs,
      List.append_assoc]
  · simp [mainChgidStage, preDaemonTrace, hg]

theorem main_reach (cfg : BBConfig) (env : Env) (h : reachesLoop cfg env = true) :
    main cfg env = ⟨0, preShutdownTrace cfg env ++ shutdownSeq cfg env⟩ := by
  obtain ⟨hD, hdm⟩ := reachL_parts cfg env h
  rw [main_reachD cfg env hD]
  by_cases hm : env.daemon_mode
  · obtain ⟨hf, hs2, hc2, fd, hfd⟩ := hdm hm
    simp [mainDaemonStage, mainLoopStage, preShutdownTrace, hm,
      daemonize, hf, hs2, hc2, hfd, List.append_assoc]
  · simp [mainDaemonStage, mainLoopStage, preShutdownTrace, hm,
      List.append_assoc]

theorem mem_ite_list {c : Prop} [Decidable c] {l1 l2 : List Ev} {e : Ev}
    (he : e ∈ (if c then l1 else l2)) : e ∈ l1 ∨ e ∈ l2 := by
  split at he
  · exact Or.inl he
  · exact Or.inr he

/-- Events that are none of: a shutdown-coordinator step, a socket-server
open, the event loop, a power-controller call, a pidfile write. -/
def cleanEv (e : Ev) : Prop :=
  isShutStep e = false ∧ isSocketOpen e = false ∧ isRunLoop e = false
    ∧ isPowerCall e = false ∧ isPidWrite e = false

theorem startupPrefix_clean (env : Env) :
    ∀ e ∈ startupPrefix env, cleanEv e := by
  intro e he
  simp only [startupPrefix, List.mem_cons, List.not_mem_nil, or_false] at he
  rcases he with rfl | rfl | rfl | rfl | rfl | rfl | rfl | rfl | rfl <;>
    exact ⟨rfl, rfl, rfl, rfl, rfl⟩

theorem bb_chgid_trace_clean (cfg : BBConfig) (env : Env) (st : PState) :
    ∀ e ∈ (bb_chgid cfg env st).2.2, cleanEv e := by
  intro e he
  unfold bb_chgid at he
  cases hg : env.group_gid with
  | none =>
      rw [hg] at he; simp at he
      rcases he with rfl | rfl | rfl <;> exact ⟨rfl, rfl, rfl, rfl, rfl⟩
  | some g =>
      rw [hg] at he
      by_cases hs : env.setgid_ok
      · simp [hs] at he
        rcases he with rfl | rfl | rfl <;> exact ⟨rfl, rfl, rfl, rfl, rfl⟩
      · simp [hs] at he
        rcases he with rfl | rfl | rfl <;> exact ⟨rfl, rfl, rfl, rfl, rfl⟩

theorem daemonize_trace_clean (env : Env) :
    ∀ e ∈ (daemonize env).2, cleanEv e := by
  intro e he
  unfold daemonize at he
  cases hf : env.fork_res with
  | failed =>
      rw [hf] at he; simp at he
      rcases he with rfl | rfl <;> exact ⟨rfl, rfl, rfl, rfl, rfl⟩
  | parent =>
      rw [hf] at he; simp at he
      rcases he with rfl | rfl <;> exact ⟨rfl, rfl, rfl, rfl, rfl⟩
  | child =>
      rw [hf] at he
      by_cases hs : env.setsid_ok
      · by_cases hc : env.chdir_ok
        · cases hd : env.devnull with
          | some fd =>
              rw [hd] at he; simp [hs, hc] at he
              rcases he with rfl | rfl | rfl | rfl | rfl | rfl | rfl <;>
                exact ⟨rfl, rfl, rfl, rfl, rfl⟩
          | none =>
              rw [hd] at he; simp [hs, hc] at he
              rcases he with rfl | rfl | rfl | rfl | rfl <;>
                exact ⟨rfl, rfl, rfl, rfl, rfl⟩
        · simp [hs, hc] at he
          rcases he with rfl | rfl | rfl | rfl <;>
            exact ⟨rfl, rfl, rfl, rfl, rfl⟩
      · simp [hs] at he
        rcases he with rfl | rfl | rfl <;> exact ⟨rfl, rfl, rfl, rfl, rfl⟩

theorem preChgidTrace_clean (cfg : BBConfig) (env : Env) :
    ∀ e ∈ preChgidTrace cfg env, cleanEv e := by
  intro e he
  unfold preChgidTrace at he
  rcases List.mem_append.mp he with hA | hB
  · exact startupPrefix_clean env e hA
  · rcases mem_ite_list hB with h1 | h1
    · simp at h1; subst h1; exact ⟨rfl, rfl, rfl, rfl, rfl⟩
    · simp at h1

theorem preDaemonTrace_clean (cfg : BBConfig) (env : Env) :
    ∀ e ∈ preDaemonTrace cfg env, cleanEv e := by
  intro e he
  unfold preDaemonTrace at he
  rcases List.mem_append.mp he with hA | hB
  · exact preChgidTrace_clean cfg env e hA
  · rcases mem_ite_list hB with h1 | h1
    · rcases List.mem_append.mp h1 with h2 | h2
      · exact bb_chgid_trace_clean cfg env (initPState env) e h2
      · simp at h2; subst h2; exact ⟨rfl, rfl, rfl, rfl, rfl⟩
    · simp at h1; subst h1; exact ⟨rfl, rfl, rfl, rfl, rfl⟩

theorem preShutdownTrace_no_shut (cfg : BBConfig) (env : Env) :
    ∀ e ∈ preShutdownTrace cfg env, isShutStep e = false := by
  intro e he
  unfold preShutdownTrace at he
  simp only [List.mem_append] at he
  rcases he with (hA | hD) | hE
  · exact (preDaemonTrace_clean cfg env e hA).1
  · rcases mem_ite_list hD with h1 | h1
    · exact (daemonize_trace_clean env e h1).1
    · simp at h1
  · simp at hE
    rcases hE with rfl | rfl | rfl | rfl | rfl | rfl <;> rfl

theorem countP_zero_of_all (p : Ev → Bool) (t : List Ev)
    (ht : ∀ e ∈ t, p e = false) : t.countP p = 0 := by
  refine List.countP_eq_zero.mpr ?_
  intro e he hpe
  rw [ht e he] at hpe
  exact Bool.false_ne_true hpe

theorem countP_zero_of_no_shut (p : Ev → Bool)
    (hp : ∀ e, p e = true → isShutStep e = true) (t : List Ev)
    (ht : ∀ e ∈ t, isShutStep e = false) : t.countP p = 0 := by
  refine List.countP_eq_zero.mpr ?_
  intro e he hpe
  have h1 := hp e hpe
  rw [ht e he] at h1
  exact Bool.false_ne_true h1

theorem isConnFini_shut (e : Ev) (h : isConnFini e = true) : isShutStep e = true := by
  simp [isShutStep, h]

theorem isUnlink_shut (e : Ev) (h : isUnlink e = true) : isShutStep e = true := by
  simp [isShutStep, h]

theorem isSetExit_shut (e : Ev) (h : isSetExit e = true) : isShutStep e = true := by
  simp [isShutStep, h]

theorem isDbusFini_shut (e : Ev) (h : isDbusFini e = true) : isShutStep e = true := by
  simp [isShutStep, h]

theorem isCloseLogEv_shut (e : Ev) (h : isCloseLogEv e = true) : isShutStep e = true := by
  simp [isShutStep, h]

theorem isPidRemove_shut (e : Ev) (h : isPidRemove e = true) : isShutStep e = true := by
  simp [isShutStep, h]

theorem isStopAll_shut (e : Ev) (h : isStopAll e = true) : isShutStep e = true := by
  simp [isShutStep, h]

theorem shutdownSeq_counts (cfg : BBConfig) (env : Env) :
    (shutdownSeq cfg env).countP isConnFini = 1
    ∧ (shutdownSeq cfg env).countP isUnlink = 1
    ∧ (shutdownSeq cfg env).countP isSetExit = 1
    ∧ (shutdownSeq cfg env).countP isDbusFini = 1
    ∧ (shutdownSeq cfg env).countP isCloseLogEv = 1
    ∧ (shutdownSeq cfg env).countP isPidRemove = 1
    ∧ (shutdownSeq cfg env).countP isStopAll = 1
    ∧ (shutdownSeq cfg env).countP isPowerCall = 1 := by
  by_cases hc : cfg.card_shutdown_state <;> by_cases hx : env.x_err_fd = -1 <;>
    simp [shutdownSeq, hc, hx, isConnFini, isUnlink, isSetExit, isDbusFini,
      isCloseLogEv, isPidRemove, isStopAll, isPowerCall, isStartSec, isStopSec,
      List.countP_cons, List.countP_append]

theorem main_reach_countP (cfg : BBConfig) (env : Env)
    (h : reachesLoop cfg env = true) (p : Ev → Bool)
    (hp : ∀ e, p e = true → isShutStep e = true) :
    ((main cfg env).trace).countP p = (shutdownSeq cfg env).countP p := by
  rw [main_reach cfg env h]
  simp [List.countP_append,
    countP_zero_of_no_shut p hp _ (preShutdownTrace_no_shut cfg env)]

theorem shutdownSeq_countP_pidWrite (cfg : BBConfig) (env : Env) :
    (shutdownSeq cfg env).countP isPidWrite = 0 := by
  by_cases hc : cfg.card_shutdown_state <;> by_cases hx : env.x_err_fd = -1 <;>
    simp [shutdownSeq, hc, hx, isPidWrite, List.countP_cons, List.countP_append]

theorem daemonize_parent_iff (env : Env) :
    (daemonize env).1 = DaemonizeRes.parentExited ↔
      env.fork_res = ForkRes.parent := by
  cases hf : env.fork_res
  · simp [daemonize, hf]
  · simp [daemonize, hf]
  · by_cases hs : env.setsid_ok
    · by_cases hc : env.chdir_ok
      · cases hd : env.devnull <;> simp [daemonize, hf, hs, hc, hd]
      · simp [daemonize, hf, hs, hc]
    · simp [daemonize, hf, hs]

theorem mainLoopStage_pidRemove (cfg : BBConfig) (env : Env) (t : List Ev) :
    ((mainLoopStage cfg env t).trace).countP isPidRemove
      = t.countP isPidRemove + 1 := by
  have h6 := (shutdownSeq_counts cfg env).2.2.2.2.2.1
  simp [mainLoopStage, List.countP_append, List.countP_cons, isPidRemove, h6]

theorem mainDaemonStage_pidRemove (cfg : BBConfig) (env : Env) (t : List Ev)
    (hpar : env.daemon_mode = true → env.fork_res ≠ ForkRes.parent) :
    ((mainDaemonStage cfg env t).trace).countP isPidRemove
      = t.countP isPidRemove + 1 := by
  by_cases hm : env.daemon_mode
  · have hma := hpar hm
    have htd : ((daemonize env).2).countP isPidRemove = 0 :=
      countP_zero_of_all isPidRemove _
        (fun e he => by
          have h1 := (daemonize_trace_clean env e he).1
          cases hpe : isPidRemove e
          · rfl
          · exact absurd (isPidRemove_shut e hpe) (by rw [h1]; simp))
    rcases hde : daemonize env with ⟨dr, td⟩
    have htd2 : td.countP isPidRemove = 0 := by rw [hde] at htd; exact htd
    cases dr with
    | parentExited =>
        exact absurd ((daemonize_parent_iff env).mp (by rw [hde])) hma
    | ret c =>
        by_cases hc0 : c = 0
        · subst hc0
          simp only [mainDaemonStage, hm, if_true, hde, ne_eq,
            not_true_eq_false, if_false, reduceIte]
          rw [mainLoopStage_pidRemove]
          simp [List.countP_append, htd2]
        · simp only [mainDaemonStage, hm, if_true, hde]
          rw [if_pos hc0]
          simp [List.countP_append, List.countP_cons, isPidRemove, htd2]
  · simp only [mainDaemonStage, hm]
    rw [if_neg (by simp [hm])]
    exact mainLoopStage_pidRemove cfg env t

theorem mainChgidStage_pidRemove (cfg : BBConfig) (env : Env) (t : List Ev)
    (hpar : env.daemon_mode = true → env.fork_res ≠ ForkRes.parent) :
    ((mainChgidStage cfg env t).trace).countP isPidRemove
      = t.countP isPidRemove + 1 := by
  have htc : ((bb_chgid cfg env (initPState env)).2.2).countP isPidRemove = 0 :=
    countP_zero_of_all isPidRemove _
      (fun e he => by
        have h1 := (bb_chgid_trace_clean cfg env (initPState env) e he).1
        cases hpe : isPidRemove e
        · rfl
        · exact absurd (isPidRemove_shut e hpe) (by rw [h1]; simp))
  by_cases hg : gidConfigured cfg
  · by_cases hcf : (bb_chgid cfg env (initPState env)).1 ≠ 0
    · simp [mainChgidStage, hg, hcf, List.countP_append, List.countP_cons,
        isPidRemove, htc]
    · simp only [mainChgidStage, hg, if_true, hcf, if_false, reduceIte]
      rw [mainDaemonStage_pidRemove cfg env _ hpar]
      simp [List.countP_append, List.countP_cons, isPidRemove, htc]
  · simp only [mainChgidStage, hg, Bool.false_eq_true, if_false, reduceIte]
    rw [mainDaemonStage_pidRemove cfg env _ hpar]
    simp [List.countP_append, List.countP_cons, isPidRemove]

theorem main_pidRemove_once (cfg : BBConfig) (env : Env)
    (h : reachesPastPidfile cfg env = true)
    (hpar : env.daemon_mode = true → env.fork_res ≠ ForkRes.parent) :
    ((main cfg env).trace).countP isPidRemove = 1 := by
  rw [main_reachPid cfg env h]
  rw [mainChgidStage_pidRemove cfg env _ hpar]
  have h0 : (preChgidTrace cfg env).countP isPidRemove = 0 :=
    countP_zero_of_all isPidRemove _
      (fun e he => by
        have h1 := (preChgidTrace_clean cfg env e he).1
        cases hpe : isPidRemove e
        · rfl
        · exact absurd (isPidRemove_shut e hpe) (by rw [h1]; simp))
  rw [h0]

theorem handle_signal_nonpipe (s : Sig) (hs : s ≠ Sig.pipe) (st : SigState) :
    (handle_signal s st).1.sigpipes = st.sigpipes
    ∧ countPipeLogs (handle_signal s st).2 = 0 := by
  cases s
  case pipe => exact absurd rfl hs
  all_goals exact ⟨rfl, rfl⟩

theorem runSignals_pipe_count (sigs : List Sig) : ∀ st : SigState,
    countPipeLogs (runSignals sigs st).2
      = min (sigs.countP isPipeSig) (11 - st.sigpipes) := by
  induction sigs with
  | nil => intro st; simp [runSignals, countPipeLogs]
  | cons s rest ih =>
      intro st
      by_cases hsp : s = Sig.pipe
      · subst hsp
        by_cases h10 : st.sigpipes ≤ 10
        · have hr := ih { st with sigpipes := st.sigpipes + 1 }
          simp [countPipeLogs] at hr
          simp only [runSignals, handle_signal, h10, if_true, countPipeLogs,
            List.countP_append, List.countP_cons, List.countP_nil, isPipeLog,
            isPipeSig, reduceIte]
          omega
        · have hr := ih st
          simp [countPipeLogs] at hr
          simp only [runSignals, handle_signal, h10, if_false, countPipeLogs,
            List.countP_append, List.countP_cons, List.countP_nil, isPipeLog,
            isPipeSig, reduceIte]
          omega
      · have hf : isPipeSig s = false := by
          cases s <;> first | rfl | exact absurd rfl hsp
        obtain ⟨h1, h2⟩ := handle_signal_nonpipe s hsp st
        have h3 := ih (handle_signal s st).1
        rw [h1] at h3
        simp only [countPipeLogs] at h2 h3
        simp only [runSignals, countPipeLogs, List.countP_append,
          List.countP_cons, List.countP_nil, hf, Bool.false_eq_true, if_false,
          reduceIte]
        omega

theorem mainChgidStage_fail_trace (cfg : BBConfig) (env : Env) (t : List Ev)
    (hg : gidConfigured cfg = true)
    (hcf : (bb_chgid cfg env (initPState env)).1 ≠ 0) :
    mainChgidStage cfg env t
      = ⟨(bb_chgid cfg env (initPState env)).1,
         t ++ (bb_chgid cfg env (initPState env)).2.2
           ++ [Ev.closeLog, Ev.pidfileRemoveCall (pidHeld cfg)]⟩ := by
  simp [mainChgidStage, hg, hcf]

theorem mainDaemonStage_fail_trace (cfg : BBConfig) (env : Env) (t : List Ev)
    (hm : env.daemon_mode = true) (c : Nat) (td : List Ev)
    (hde : daemonize env = (DaemonizeRes.ret c, td)) (hc0 : c ≠ 0) :
    mainDaemonStage cfg env t
      = ⟨c, t ++ td ++ [Ev.closeLog, Ev.pidfileRemoveCall (pidHeld cfg)]⟩ := by
  simp [mainDaemonStage, hm, hde, hc0]

theorem mainDaemonStage_parent_trace (cfg : BBConfig) (env : Env) (t : List Ev)
    (hm : env.daemon_mode = true) (td : List Ev)
    (hde : daemonize env = (DaemonizeRes.parentExited, td)) :
    mainDaemonStage cfg env t = ⟨0, t ++ td⟩ := by
  simp [mainDaemonStage, hm, hde]

/- ------------------------------------------------------------------ -/
/- The claims.                                                         -/
/- ------------------------------------------------------------------ -/

/-- Claim C1: after the event loop returns, the shutdown coordinator runs
exactly once and executes its nine steps in this fixed order: connection
teardown, socket unlink, `runmode := BB_RUN_EXIT`, final power-policy
enforcement, dbus teardown, log close, pidfile release, `bb_stop_all`, and
the (guarded) close of the inherited diagnostic descriptor.  The order is
the same for every environment, in particular for every outcome of the
best-effort steps (e.g. a failed `unlink`), so no step is skipped because
an earlier one failed; and the steps each occur exactly once in the whole
process trace. -/
theorem shutdown_coordinator_once_ordered (cfg : BBConfig) (env : Env)
    (h : reachesLoop cfg env = true) :
    (main cfg env).trace = preShutdownTrace cfg env ++ shutdownSeq cfg env
    ∧ shutdownSeq cfg env
      = [Ev.connectionsFiniCall,
         Ev.unlinkCall cfg.socket_path env.unlink_ok,
         Ev.setRunMode RunMode.exit]
        ++ (if cfg.card_shutdown_state then [Ev.startSecondaryCall]
            else [Ev.stopSecondaryCall])
        ++ [Ev.dbusFini, Ev.closeLog, Ev.pidfileRemoveCall (pidHeld cfg),
            Ev.stopAllCall]
        ++ (if env.x_err_fd ≠ -1 then [Ev.closeFdCall env.x_err_fd] else [])
    ∧ ((main cfg env).trace).countP isConnFini = 1
    ∧ ((main cfg env).trace).countP isUnlink = 1
    ∧ ((main cfg env).trace).countP isSetExit = 1
    ∧ ((main cfg env).trace).countP isDbusFini = 1
    ∧ ((main cfg env).trace).countP isCloseLogEv = 1
    ∧ ((main cfg env).trace).countP isPidRemove = 1
    ∧ ((main cfg env).trace).countP isStopAll = 1 := by
  obtain ⟨h1, h2, h3, h4, h5, h6, h7, h8⟩ := shutdownSeq_counts cfg env
  refine ⟨by rw [main_reach cfg env h], rfl, ?_, ?_, ?_, ?_, ?_, ?_, ?_⟩
  · rw [main_reach_countP cfg env h isConnFini isConnFini_shut]; exact h1
  · rw [main_reach_countP cfg env h isUnlink isUnlink_shut]; exact h2
  · rw [main_reach_countP cfg env h isSetExit isSetExit_shut]; exact h3
  · rw [main_reach_countP cfg env h isDbusFini isDbusFini_shut]; exact h4
  · rw [main_reach_countP cfg env h isCloseLogEv isCloseLogEv_shut]; exact h5
  · rw [main_reach_countP cfg env h isPidRemove isPidRemove_shut]; exact h6
  · rw [main_reach_countP cfg env h isStopAll isStopAll_shut]; exact h7

theorem shutdown_coordinator_once_ordered_witness :
    reachesLoop cfgW envW = true
    ∧ ((main cfgW envW).trace).countP isConnFini = 1 :=
  ⟨by decide, (shutdown_coordinator_once_ordered cfgW envW (by decide)).2.2.1⟩

/-- Claim C2: on every clean shutdown the shutdown coordinator makes
exactly one power call on the discrete GPU, and it matches the configured
policy: `start_secondary` when `card_shutdown_state` is POWER_ON (true),
`stop_secondary` otherwise. -/
theorem final_power_call_matches_policy (cfg : BBConfig) (env : Env)
    (h : reachesLoop cfg env = true) :
    (main cfg env).trace = preShutdownTrace cfg env ++ shutdownSeq cfg env
    ∧ (shutdownSeq cfg env).countP isPowerCall = 1
    ∧ (cfg.card_shutdown_state = true →
        (shutdownSeq cfg env).countP isStartSec = 1
        ∧ (shutdownSeq cfg env).countP isStopSec = 0)
    ∧ (cfg.card_shutdown_state = false →
        (shutdownSeq cfg env).countP isStopSec = 1
        ∧ (shutdownSeq cfg env).countP isStartSec = 0) := by
  refine ⟨by rw [main_reach cfg env h],
    (shutdownSeq_counts cfg env).2.2.2.2.2.2.2, ?_, ?_⟩
  · intro hc
    by_cases hx : env.x_err_fd = -1 <;>
      simp [shutdownSeq, hc, hx, isStartSec, isStopSec,
        List.countP_cons, List.countP_append, List.countP_nil]
  · intro hc
    by_cases hx : env.x_err_fd = -1 <;>
      simp [shutdownSeq, hc, hx, isStartSec, isStopSec,
        List.countP_cons, List.countP_append, List.countP_nil]

theorem final_power_call_matches_policy_witness :
    reachesLoop cfgNoPid envNoDaemon = true
    ∧ (shutdownSeq cfgNoPid envNoDaemon).countP isStartSec = 1 :=
  ⟨by decide,
   ((final_power_call_matches_policy cfgNoPid envNoDaemon (by decide)).2.2.1
     rfl).1⟩

/-- Claim C3: the signal table of `handle_signal`.  INT and QUIT close the
control socket handle and change no other state; TERM closes the socket
and additionally invokes `bb_run_stopwaiting`; HUP is logged and causes no
state change; INT and QUIT never invoke the stop-waiting hint. -/
theorem handle_signal_table (st : SigState) :
    handle_signal Sig.int st
      = ({ st with socketOpen := false },
         [Ev.log LogMsg.receivedSignal, Ev.socketCloseCall])
    ∧ handle_signal Sig.quit st
      = ({ st with socketOpen := false },
         [Ev.log LogMsg.receivedSignal, Ev.socketCloseCall])
    ∧ handle_signal Sig.term st
      = ({ st with socketOpen := false, stopWaiting := true },
         [Ev.log LogMsg.receivedSignal, Ev.socketCloseCall,
          Ev.stopWaitingCall])
    ∧ handle_signal Sig.hup st = (st, [Ev.log LogMsg.receivedIgnoring])
    ∧ Ev.stopWaitingCall ∉ (handle_signal Sig.int st).2
    ∧ Ev.stopWaitingCall ∉ (handle_signal Sig.quit st).2 := by
  refine ⟨rfl, rfl, rfl, rfl, ?_, ?_⟩ <;> simp [handle_signal, socketClose]

theorem handle_signal_table_witness :
    handle_signal Sig.term initSigState
      = ({ initSigState with socketOpen := false, stopWaiting := true },
         [Ev.log LogMsg.receivedSignal, Ev.socketCloseCall,
          Ev.stopWaitingCall]) :=
  (handle_signal_table initSigState).2.2.1

/-- Claim C4: when either GPU is absent from the PCI scan, `main` returns
a non-zero exit code and its trace contains no control-socket open and no
power-controller call. -/
theorem missing_gpu_aborts_early (cfg : BBConfig) (env : Env)
    (h : env.discrete_found = false ∨ env.igd_found = false) :
    (main cfg env).exitCode ≠ 0
    ∧ ((main cfg env).trace).countP isSocketOpen = 0
    ∧ ((main cfg env).trace).countP isPowerCall = 0 := by
  by_cases hd : env.discrete_found
  · have hi : env.igd_found = false := by
      rcases h with h1 | h1
      · rw [hd] at h1; simp at h1
      · exact h1
    simp [main, hd, hi, isSocketOpen, isPowerCall, isStartSec, isStopSec,
      List.countP_cons, List.countP_nil]
  · have hd2 : env.discrete_found = false := by simpa using hd
    simp [main, hd2, isSocketOpen, isPowerCall, isStartSec, isStopSec,
      List.countP_cons, List.countP_nil]

theorem missing_gpu_aborts_early_witness :
    (main cfgW envNoGpu).exitCode ≠ 0 :=
  (missing_gpu_aborts_early cfgW envNoGpu (Or.inl rfl)).1

/-- Counterexample to claim C5 as stated: the handler's guard is
`sigpipes <= 10` checked before the increment, so the occurrences 1
through 11 each produce a log line: delivering 11 SIGPIPEs to a fresh
daemon produces 11 log lines, not at most 10, and the 11th SIGPIPE (one
past the 10th) still produces a log line. -/
theorem sigpipe_eleventh_still_logs :
    countPipeLogs (runSignals (List.replicate 11 Sig.pipe) initSigState).2
      = 11 := by
  decide

/-- Claim C5 (amended): across the whole process lifetime at most 11
SIGPIPE occurrences produce a log line — exactly the first
`min(total, 11)` of them — every SIGPIPE after the 11th produces no log
line, the saturating counter never decreases, and a SIGPIPE never touches
the socket handle or the stop-waiting flag and produces nothing but
SIGPIPE log lines (in particular it never terminates the daemon). -/
theorem sigpipe_log_cap_eleven (sigs : List Sig) :
    countPipeLogs (runSignals sigs initSigState).2
      = min (sigs.countP isPipeSig) 11
    ∧ (∀ s st, st.sigpipes ≤ (handle_signal s st).1.sigpipes)
    ∧ (∀ st : SigState,
        (handle_signal Sig.pipe st).1.socketOpen = st.socketOpen
        ∧ (handle_signal Sig.pipe st).1.stopWaiting = st.stopWaiting
        ∧ ∀ e ∈ (handle_signal Sig.pipe st).2, isPipeLog e = true) := by
  refine ⟨?_, ?_, ?_⟩
  · have h1 := runSignals_pipe_count sigs initSigState
    simpa [initSigState] using h1
  · intro s st
    cases s
    case pipe =>
      simp only [handle_signal]
      split
      · simp
      · exact Nat.le_refl _
    all_goals exact Nat.le_refl _
  · intro st
    refine ⟨?_, ?_, ?_⟩
    · simp only [handle_signal]
      split <;> rfl
    · simp only [handle_signal]
      split <;> rfl
    · intro e he
      simp only [handle_signal] at he
      split at he
      · simp at he; subst he; rfl
      · simp at he

theorem sigpipe_log_cap_eleven_witness :
    countPipeLogs (runSignals (List.replicate 12 Sig.pipe) initSigState).2
      = min ((List.replicate 12 Sig.pipe).countP isPipeSig) 11 :=
  (sigpipe_log_cap_eleven (List.replicate 12 Sig.pipe)).1

/-- Claim C6: when a pidfile path is configured and another live instance
holds the exclusive pidfile lock (`pidfile_open` fails with `EEXIST`), an
otherwise-normal startup logs the distinguished "already running" message
with the other pid, exits non-zero, and makes no power-controller call
(and never opens the control socket). -/
theorem pidfile_contention_aborts (cfg : BBConfig) (env : Env)
    (hd : env.discrete_found = true) (hi : env.igd_found = true)
    (hv : env.config_valid = true) (hp : cfg.pid_file ≠ "")
    (he : env.pidfile_open = PidOpen.eexist) :
    (main cfg env).exitCode ≠ 0
    ∧ Ev.log (LogMsg.alreadyRunning env.otherpid) ∈ (main cfg env).trace
    ∧ ((main cfg env).trace).countP isPowerCall = 0
    ∧ ((main cfg env).trace).countP isSocketOpen = 0 := by
  simp [main, mainPidfileStage, startupPrefix, hd, hi, hv, hp, he,
    isPowerCall, isStartSec, isStopSec, isSocketOpen,
    List.countP_cons, List.countP_append, List.countP_nil]

theorem pidfile_contention_aborts_witness :
    (main cfgW envPidBusy).exitCode ≠ 0
    ∧ Ev.log (LogMsg.alreadyRunning envPidBusy.otherpid)
        ∈ (main cfgW envPidBusy).trace :=
  ⟨(pidfile_contention_aborts cfgW envPidBusy rfl rfl rfl (by decide) rfl).1,
   (pidfile_contention_aborts cfgW envPidBusy rfl rfl rfl (by decide) rfl).2.1⟩

/-- Claim C7: `daemonize` forks; on a good fork the parent exits with
success immediately (no further work: its trace ends at the parent exit);
the child creates a session, changes directory to the root and redirects
the three standard descriptors to /dev/null; a failure of the fork, the
session creation, the directory change or the null-device open makes
`daemonize` return `EXIT_FAILURE`, which makes `main` abort startup
(non-zero exit, no control socket, no event loop). -/
theorem daemonize_contract (cfg : BBConfig) (env : Env) :
    (env.fork_res = ForkRes.parent →
      daemonize env = (DaemonizeRes.parentExited,
        [Ev.forkCall ForkRes.parent, Ev.parentExit]))
    ∧ (env.fork_res = ForkRes.failed →
        (daemonize env).1 = DaemonizeRes.ret 1)
    ∧ (env.fork_res = ForkRes.child → env.setsid_ok = false →
        (daemonize env).1 = DaemonizeRes.ret 1)
    ∧ (env.fork_res = ForkRes.child → env.setsid_ok = true →
        env.chdir_ok = false → (daemonize env).1 = DaemonizeRes.ret 1)
    ∧ (env.fork_res = ForkRes.child → env.setsid_ok = true →
        env.chdir_ok = true → env.devnull = none →
        (daemonize env).1 = DaemonizeRes.ret 1)
    ∧ (∀ fd, env.fork_res = ForkRes.child → env.setsid_ok = true →
        env.chdir_ok = true → env.devnull = some fd →
        daemonize env = (DaemonizeRes.ret 0,
          [Ev.forkCall ForkRes.child, Ev.setsidCall true, Ev.chdirRoot true,
           Ev.openDevNull (some fd), Ev.dup2Call fd 0, Ev.dup2Call fd 1,
           Ev.dup2Call fd 2]))
    ∧ (env.daemon_mode = true → reachesDaemonize cfg env = true →
        ∀ c td, daemonize env = (DaemonizeRes.ret c, td) → c ≠ 0 →
          (main cfg env).exitCode = c
          ∧ ((main cfg env).trace).countP isSocketOpen = 0
          ∧ ((main cfg env).trace).countP isRunLoop = 0)
    ∧ (env.daemon_mode = true → reachesDaemonize cfg env = true →
        ∀ td, daemonize env = (DaemonizeRes.parentExited, td) →
          (main cfg env).exitCode = 0
          ∧ ∃ p, (main cfg env).trace = p ++ [Ev.parentExit]) := by
  refine ⟨?_, ?_, ?_, ?_, ?_, ?_, ?_, ?_⟩
  · intro hf; simp [daemonize, hf]
  · intro hf; simp [daemonize, hf]
  · intro hf hs; simp [daemonize, hf, hs]
  · intro hf hs hc; simp [daemonize, hf, hs, hc]
  · intro hf hs hc hn; simp [daemonize, hf, hs, hc, hn]
  · intro fd hf hs hc hn; simp [daemonize, hf, hs, hc, hn]
  · intro hm hrD c td hde hc0
    rw [main_reachD cfg env hrD,
      mainDaemonStage_fail_trace cfg env _ hm c td hde hc0]
    have htd : ∀ e ∈ td, cleanEv e := by
      have h1 := daemonize_trace_clean env
      rw [hde] at h1; exact h1
    have hso : (preDaemonTrace cfg env).countP isSocketOpen = 0 :=
      countP_zero_of_all _ _
        (fun e he => (preDaemonTrace_clean cfg env e he).2.1)
    have hso2 : td.countP isSocketOpen = 0 :=
      countP_zero_of_all _ _ (fun e he => (htd e he).2.1)
    have hrl : (preDaemonTrace cfg env).countP isRunLoop = 0 :=
      countP_zero_of_all _ _
        (fun e he => (preDaemonTrace_clean cfg env e he).2.2.1)
    have hrl2 : td.countP isRunLoop = 0 :=
      countP_zero_of_all _ _ (fun e he => (htd e he).2.2.1)
    refine ⟨rfl, ?_, ?_⟩
    · simp [List.countP_append, List.countP_cons, List.countP_nil,
        hso, hso2, isSocketOpen]
    · simp [List.countP_append, List.countP_cons, List.countP_nil,
        hrl, hrl2, isRunLoop]
  · intro hm hrD td hde
    rw [main_reachD cfg env hrD,
      mainDaemonStage_parent_trace cfg env _ hm td hde]
    have hde1 : (daemonize env).1 = DaemonizeRes.parentExited := by
      rw [hde]
    have hfp : env.fork_res = ForkRes.parent :=
      (daemonize_parent_iff env).mp hde1
    have htd : td = [Ev.forkCall ForkRes.parent, Ev.parentExit] := by
      have h1 : daemonize env
          = (DaemonizeRes.parentExited,
             [Ev.forkCall ForkRes.parent, Ev.parentExit]) := by
        simp [daemonize, hfp]
      rw [hde] at h1
      exact (Prod.mk.injEq _ _ _ _).mp h1 |>.2
    subst htd
    exact ⟨rfl, ⟨preDaemonTrace cfg env ++ [Ev.forkCall ForkRes.parent],
      by simp⟩⟩

theorem daemonize_contract_witness :
    daemonize envParent
      = (DaemonizeRes.parentExited,
         [Ev.forkCall ForkRes.parent, Ev.parentExit]) :=
  (daemonize_contract cfgW envParent).1 rfl

/-- Claim C8: `bb_chgid` fails (returns `EXIT_FAILURE`) iff the configured
group name does not resolve in the group database or the GID cannot be
set; on success the process GID is the resolved group's GID and the
file-creation mask is 027 (23); on failure the whole process state — in
particular the file-creation mask — is unchanged. -/
theorem bb_chgid_contract (cfg : BBConfig) (env : Env) (st : PState) :
    ((bb_chgid cfg env st).1 ≠ 0 ↔
      (env.group_gid = none ∨ env.setgid_ok = false))
    ∧ ((bb_chgid cfg env st).1 = 0 →
        (bb_chgid cfg env st).2.1.gid = env.group_gid
        ∧ (bb_chgid cfg env st).2.1.umaskVal = 23)
    ∧ ((bb_chgid cfg env st).1 ≠ 0 → (bb_chgid cfg env st).2.1 = st) := by
  cases hg : env.group_gid with
  | none => simp [bb_chgid, hg]
  | some g => by_cases hs : env.setgid_ok <;> simp [bb_chgid, hg, hs]

theorem bb_chgid_contract_witness :
    (bb_chgid cfgW envW (initPState envW)).1 = 0
    ∧ (bb_chgid cfgW envW (initPState envW)).2.1.gid = envW.group_gid
    ∧ (bb_chgid cfgW envW (initPState envW)).2.1.umaskVal = 23 :=
  ⟨by decide,
   ((bb_chgid_contract cfgW envW (initPState envW)).2.1 (by decide)).1,
   ((bb_chgid_contract cfgW envW (initPState envW)).2.1 (by decide)).2⟩

/-- Claim C9 (implicit): on the fatal startup paths past the pidfile block
— gid/umask failure and daemonize failure — `main` closes the log and then
releases the pidfile as its final two effects before exiting non-zero,
with the shutdown coordinator never running; and on every exit path of the
daemon process past the pidfile block (fatal or clean; the forked parent's
intentional exit aside) `pidfile_remove` is called exactly once. -/
theorem pidfile_released_once (cfg : BBConfig) (env : Env)
    (h : reachesPastPidfile cfg env = true)
    (hpar : env.daemon_mode = true → env.fork_res ≠ ForkRes.parent) :
    ((main cfg env).trace).countP isPidRemove = 1
    ∧ (gidConfigured cfg = true →
        (bb_chgid cfg env (initPState env)).1 ≠ 0 →
        (main cfg env).exitCode ≠ 0
        ∧ (∃ p, (main cfg env).trace
            = p ++ [Ev.closeLog, Ev.pidfileRemoveCall (pidHeld cfg)])
        ∧ ((main cfg env).trace).countP isConnFini = 0)
    ∧ (∀ c td, env.daemon_mode = true → reachesDaemonize cfg env = true →
        daemonize env = (DaemonizeRes.ret c, td) → c ≠ 0 →
        (main cfg env).exitCode ≠ 0
        ∧ (∃ p, (main cfg env).trace
            = p ++ [Ev.closeLog, Ev.pidfileRemoveCall (pidHeld cfg)])
        ∧ ((main cfg env).trace).countP isConnFini = 0) := by
  refine ⟨main_pidRemove_once cfg env h hpar, ?_, ?_⟩
  · intro hg hcf
    rw [main_reachPid cfg env h,
      mainChgidStage_fail_trace cfg env _ hg hcf]
    have h1 : (preChgidTrace cfg env).countP isConnFini = 0 :=
      countP_zero_of_no_shut isConnFini isConnFini_shut _
        (fun e he => (preChgidTrace_clean cfg env e he).1)
    have h2 : ((bb_chgid cfg env (initPState env)).2.2).countP isConnFini
        = 0 :=
      countP_zero_of_no_shut isConnFini isConnFini_shut _
        (fun e he =>
          (bb_chgid_trace_clean cfg env (initPState env) e he).1)
    refine ⟨hcf, ⟨preChgidTrace cfg env
      ++ (bb_chgid cfg env (initPState env)).2.2, by simp⟩, ?_⟩
    simp [List.countP_append, List.countP_cons, List.countP_nil,
      h1, h2, isConnFini]
  · intro c td hm hrD hde hc0
    rw [main_reachD cfg env hrD,
      mainDaemonStage_fail_trace cfg env _ hm c td hde hc0]
    have htd : ∀ e ∈ td, cleanEv e := by
      have h1 := daemonize_trace_clean env
      rw [hde] at h1; exact h1
    have h1 : (preDaemonTrace cfg env).countP isConnFini = 0 :=
      countP_zero_of_no_shut isConnFini isConnFini_shut _
        (fun e he => (preDaemonTrace_clean cfg env e he).1)
    have h2 : td.countP isConnFini = 0 :=
      countP_zero_of_no_shut isConnFini isConnFini_shut _
        (fun e he => (htd e he).1)
    refine ⟨hc0, ⟨preDaemonTrace cfg env ++ td, by simp⟩, ?_⟩
    simp [List.countP_append, List.countP_cons, List.countP_nil,
      h1, h2, isConnFini]

theorem pidfile_released_once_witness :
    reachesPastPidfile cfgW envW = true
    ∧ ((main cfgW envW).trace).countP isPidRemove = 1 :=
  ⟨by decide, (pidfile_released_once cfgW envW (by decide) (by decide)).1⟩

/-- Claim C10 (implicit): in WITH_PIDFILE builds, `pidfile_write` is
called exactly once on every startup that reaches the post-daemonization
point, including when no pidfile path is configured — in that case the
handle passed is NULL (`held = false`); the guard on the configured path
only wraps the lock acquisition, not the write. -/
theorem pidfile_write_unconditional (cfg : BBConfig) (env : Env)
    (h : reachesLoop cfg env = true) :
    ((main cfg env).trace).countP isPidWrite = 1
    ∧ Ev.pidfileWriteCall (pidHeld cfg) ∈ (main cfg env).trace
    ∧ (cfg.pid_file = "" →
        pidHeld cfg = false
        ∧ Ev.pidfileWriteCall false ∈ (main cfg env).trace) := by
  have htr := main_reach cfg env h
  have h1 : (preDaemonTrace cfg env).countP isPidWrite = 0 :=
    countP_zero_of_all _ _
      (fun e he => (preDaemonTrace_clean cfg env e he).2.2.2.2)
  have hw : Ev.pidfileWriteCall (pidHeld cfg) ∈ (main cfg env).trace := by
    rw [htr]
    simp [preShutdownTrace]
  refine ⟨?_, hw, ?_⟩
  · rw [htr]
    by_cases hm : env.daemon_mode
    · have h2 : ((daemonize env).2).countP isPidWrite = 0 :=
        countP_zero_of_all _ _
          (fun e he => (daemonize_trace_clean env e he).2.2.2.2)
      simp [preShutdownTrace, hm, List.countP_append, List.countP_cons,
        List.countP_nil, h1, h2, shutdownSeq_countP_pidWrite, isPidWrite]
    · simp [preShutdownTrace, hm, List.countP_append, List.countP_cons,
        List.countP_nil, h1, shutdownSeq_countP_pidWrite, isPidWrite]
  · intro hp
    have hpf : pidHeld cfg = false := by simp [pidHeld, hp]
    refine ⟨hpf, ?_⟩
    rw [← hpf]
    exact hw

theorem pidfile_write_unconditional_witness :
    pidHeld cfgNoPid = false
    ∧ Ev.pidfileWriteCall false ∈ (main cfgNoPid envNoDaemon).trace :=
  (pidfile_write_unconditional cfgNoPid envNoDaemon (by decide)).2.2 rfl

end Bumblebeed
